import Mathlib

/-!
Shallow embedding of the myonites real-time pose-tracking pipeline.

JavaScript numbers are modelled as rationals (ℚ): every constant the
verified properties touch (0.3, 0.9, 0.1, landmark coordinates) is used
only through order comparisons and exact arithmetic identities, which the
source expresses with the same literals on both sides.

Canvas 2D drawing is modelled as a trace of drawing commands: each call
on the rendering context becomes one `CanvasCmd` element, emitted in the
order the source issues the calls.
-/

namespace Myonites

/- Named landmark indices of the 33-point MediaPipe body model, embedded
from `packages/shared` `LANDMARK_INDEX`. -/
namespace LANDMARK_INDEX

def NOSE : Nat := 0
def LEFT_EYE_INNER : Nat := 1
def LEFT_EYE : Nat := 2
def LEFT_EYE_OUTER : Nat := 3
def RIGHT_EYE_INNER : Nat := 4
def RIGHT_EYE : Nat := 5
def RIGHT_EYE_OUTER : Nat := 6
def LEFT_EAR : Nat := 7
def RIGHT_EAR : Nat := 8
def MOUTH_LEFT : Nat := 9
def MOUTH_RIGHT : Nat := 10
def LEFT_SHOULDER : Nat := 11
def RIGHT_SHOULDER : Nat := 12
def LEFT_ELBOW : Nat := 13
def RIGHT_ELBOW : Nat := 14
def LEFT_WRIST : Nat := 15
def RIGHT_WRIST : Nat := 16
def LEFT_PINKY : Nat := 17
def RIGHT_PINKY : Nat := 18
def LEFT_INDEX : Nat := 19
def RIGHT_INDEX : Nat := 20
def LEFT_THUMB : Nat := 21
def RIGHT_THUMB : Nat := 22
def LEFT_HIP : Nat := 23
def RIGHT_HIP : Nat := 24
def LEFT_KNEE : Nat := 25
def RIGHT_KNEE : Nat := 26
def LEFT_ANKLE : Nat := 27
def RIGHT_ANKLE : Nat := 28
def LEFT_HEEL : Nat := 29
def RIGHT_HEEL : Nat := 30
def LEFT_FOOT_INDEX : Nat := 31
def RIGHT_FOOT_INDEX : Nat := 32

end LANDMARK_INDEX

/-- Visual styling configuration for the skeleton overlay
(`DrawConfig` in `drawLandmarks.ts`). -/
structure DrawConfig where
  landmarkRadius : ℚ
  connectionLineWidth : ℚ
  highConfidenceColor : String
  mediumConfidenceColor : String
  lowConfidenceColor : String
  connectionColor : String
  visibilityThreshold : ℚ
  deriving DecidableEq

/-- Default drawing configuration (`DEFAULT_DRAW_CONFIG`). -/
def DEFAULT_DRAW_CONFIG : DrawConfig :=
  { landmarkRadius := 6
    connectionLineWidth := 3
    highConfidenceColor := "#22c55e"
    mediumConfidenceColor := "#eab308"
    lowConfidenceColor := "#ef4444"
    connectionColor := "rgba(255, 255, 255, 0.6)"
    visibilityThreshold := 3/10 }

/-- Caller-supplied configuration overrides: the TypeScript parameter has
type `Partial<DrawConfig>`, every field optional. -/
structure DrawConfigOverride where
  landmarkRadius : Option ℚ
  connectionLineWidth : Option ℚ
  highConfidenceColor : Option String
  mediumConfidenceColor : Option String
  lowConfidenceColor : Option String
  connectionColor : Option String
  visibilityThreshold : Option ℚ
  deriving DecidableEq

/-- The empty override record, the TypeScript default argument value. -/
def emptyOverride : DrawConfigOverride :=
  { landmarkRadius := none
    connectionLineWidth := none
    highConfidenceColor := none
    mediumConfidenceColor := none
    lowConfidenceColor := none
    connectionColor := none
    visibilityThreshold := none }

/-- The spread-merge `{ ...DEFAULT_DRAW_CONFIG, ...config }` computing the
final configuration inside `drawSkeleton`. -/
def resolveConfig (config : DrawConfigOverride) : DrawConfig :=
  { landmarkRadius := config.landmarkRadius.getD DEFAULT_DRAW_CONFIG.landmarkRadius
    connectionLineWidth :=
      config.connectionLineWidth.getD DEFAULT_DRAW_CONFIG.connectionLineWidth
    highConfidenceColor :=
      config.highConfidenceColor.getD DEFAULT_DRAW_CONFIG.highConfidenceColor
    mediumConfidenceColor :=
      config.mediumConfidenceColor.getD DEFAULT_DRAW_CONFIG.mediumConfidenceColor
    lowConfidenceColor :=
      config.lowConfidenceColor.getD DEFAULT_DRAW_CONFIG.lowConfidenceColor
    connectionColor := config.connectionColor.getD DEFAULT_DRAW_CONFIG.connectionColor
    visibilityThreshold :=
      config.visibilityThreshold.getD DEFAULT_DRAW_CONFIG.visibilityThreshold }

/-- One element of the `normalizedLandmarks` argument of `drawSkeleton`:
normalized coordinates plus an optional visibility score
(`visibility?: number` in the source). -/
structure NormalizedLandmark where
  x : ℚ
  y : ℚ
  visibility : Option ℚ
  deriving DecidableEq

/-- The fixed connection table `SKELETON_CONNECTIONS` of `drawLandmarks.ts`. -/
def SKELETON_CONNECTIONS : List (Nat × Nat) :=
  [(LANDMARK_INDEX.LEFT_SHOULDER, LANDMARK_INDEX.RIGHT_SHOULDER),
   (LANDMARK_INDEX.LEFT_SHOULDER, LANDMARK_INDEX.LEFT_HIP),
   (LANDMARK_INDEX.RIGHT_SHOULDER, LANDMARK_INDEX.RIGHT_HIP),
   (LANDMARK_INDEX.LEFT_HIP, LANDMARK_INDEX.RIGHT_HIP),
   (LANDMARK_INDEX.LEFT_SHOULDER, LANDMARK_INDEX.LEFT_ELBOW),
   (LANDMARK_INDEX.LEFT_ELBOW, LANDMARK_INDEX.LEFT_WRIST),
   (LANDMARK_INDEX.RIGHT_SHOULDER, LANDMARK_INDEX.RIGHT_ELBOW),
   (LANDMARK_INDEX.RIGHT_ELBOW, LANDMARK_INDEX.RIGHT_WRIST),
   (LANDMARK_INDEX.LEFT_HIP, LANDMARK_INDEX.LEFT_KNEE),
   (LANDMARK_INDEX.LEFT_KNEE, LANDMARK_INDEX.LEFT_ANKLE),
   (LANDMARK_INDEX.RIGHT_HIP, LANDMARK_INDEX.RIGHT_KNEE),
   (LANDMARK_INDEX.RIGHT_KNEE, LANDMARK_INDEX.RIGHT_ANKLE),
   (LANDMARK_INDEX.LEFT_ANKLE, LANDMARK_INDEX.LEFT_HEEL),
   (LANDMARK_INDEX.LEFT_HEEL, LANDMARK_INDEX.LEFT_FOOT_INDEX),
   (LANDMARK_INDEX.LEFT_ANKLE, LANDMARK_INDEX.LEFT_FOOT_INDEX),
   (LANDMARK_INDEX.RIGHT_ANKLE, LANDMARK_INDEX.RIGHT_HEEL),
   (LANDMARK_INDEX.RIGHT_HEEL, LANDMARK_INDEX.RIGHT_FOOT_INDEX),
   (LANDMARK_INDEX.RIGHT_ANKLE, LANDMARK_INDEX.RIGHT_FOOT_INDEX),
   (LANDMARK_INDEX.LEFT_EAR, LANDMARK_INDEX.LEFT_EYE),
   (LANDMARK_INDEX.LEFT_EYE, LANDMARK_INDEX.NOSE),
   (LANDMARK_INDEX.NOSE, LANDMARK_INDEX.RIGHT_EYE),
   (LANDMARK_INDEX.RIGHT_EYE, LANDMARK_INDEX.RIGHT_EAR)]

/-- `getConfidenceColor` of `drawLandmarks.ts`. -/
def getConfidenceColor (visibility : ℚ) (config : DrawConfig) : String :=
  if visibility > 7/10 then config.highConfidenceColor
  else if visibility > 4/10 then config.mediumConfidenceColor
  else config.lowConfidenceColor

/-- `toCanvasCoords` of `drawLandmarks.ts`: converts a normalized landmark
position to canvas pixel coordinates by multiplying with the canvas
dimensions. The function body applies no horizontal mirroring. -/
def toCanvasCoords (landmark : NormalizedLandmark) (canvasWidth canvasHeight : ℚ) :
    ℚ × ℚ :=
  (landmark.x * canvasWidth, landmark.y * canvasHeight)

/-- The geometric effect on a horizontal pixel coordinate of the CSS
`scaleX(-1)` presentation transform that `PosePrototypeScreen.tsx` applies
to both the video element and the overlay canvas: a point drawn at
pixel x appears on screen at `width - x`. -/
def cssMirrorX (width x : ℚ) : ℚ := width - x

/-- One canvas-context drawing command, in source emission order. The two
`arc` angle arguments, constant `0` and `2π` in the source, are omitted. -/
inductive CanvasCmd where
  | clearRect (x y w h : ℚ)
  | setStrokeStyle (color : String)
  | setLineWidth (w : ℚ)
  | setLineCapRound
  | beginPath
  | moveTo (x y : ℚ)
  | lineTo (x y : ℚ)
  | strokePath
  | arc (x y radius : ℚ)
  | setFillStyle (color : String)
  | fillPath
  deriving DecidableEq

/-- Color string "white" used for the outer dot border. -/
def whiteColor : String := "white"

/-- The body of the connection loop of `drawSkeleton` for one entry of the
connection table: given the two indexed array accesses (undefined modelled
as `none`), emit either nothing (`continue`) or the line commands. -/
def connectionSegCmds (startLandmark endLandmark : Option NormalizedLandmark)
    (cfg : DrawConfig) (w h : ℚ) : List CanvasCmd :=
  match startLandmark, endLandmark with
  | some s, some e =>
    let startVisibility := s.visibility.getD 0
    let endVisibility := e.visibility.getD 0
    if startVisibility < cfg.visibilityThreshold ∨
        endVisibility < cfg.visibilityThreshold then []
    else
      let startPos := toCanvasCoords s w h
      let endPos := toCanvasCoords e w h
      [CanvasCmd.beginPath, CanvasCmd.moveTo startPos.1 startPos.2,
       CanvasCmd.lineTo endPos.1 endPos.2, CanvasCmd.strokePath]
  | _, _ => []

/-- Phase 1 of `drawSkeleton`: the connection loop over
`SKELETON_CONNECTIONS`. -/
def connectionCmds (lms : List NormalizedLandmark) (cfg : DrawConfig) (w h : ℚ) :
    List CanvasCmd :=
  (SKELETON_CONNECTIONS.map fun p => connectionSegCmds lms[p.1]? lms[p.2]? cfg w h).flatten

/-- The body of the landmark-dot loop of `drawSkeleton` for one landmark:
skip when below the visibility threshold, else draw the white border ring
and the confidence-colored inner circle. -/
def landmarkDotCmds (landmark : NormalizedLandmark) (cfg : DrawConfig) (w h : ℚ) :
    List CanvasCmd :=
  let visibility := landmark.visibility.getD 0
  if visibility < cfg.visibilityThreshold then []
  else
    let pos := toCanvasCoords landmark w h
    [CanvasCmd.beginPath, CanvasCmd.arc pos.1 pos.2 (cfg.landmarkRadius + 1),
     CanvasCmd.setFillStyle whiteColor, CanvasCmd.fillPath,
     CanvasCmd.beginPath, CanvasCmd.arc pos.1 pos.2 cfg.landmarkRadius,
     CanvasCmd.setFillStyle (getConfidenceColor visibility cfg), CanvasCmd.fillPath]

/-- Phase 2 of `drawSkeleton`: the dot loop over the landmark array. -/
def landmarkCmds (lms : List NormalizedLandmark) (cfg : DrawConfig) (w h : ℚ) :
    List CanvasCmd :=
  (lms.map fun landmark => landmarkDotCmds landmark cfg w h).flatten

/-- `drawSkeleton` of `drawLandmarks.ts` as a command trace: clear the
canvas, return early on a null or empty landmark array, otherwise set the
line style, draw connections, then draw dots. -/
def drawSkeleton (canvasWidth canvasHeight : ℚ)
    (normalizedLandmarks : Option (List NormalizedLandmark))
    (config : DrawConfigOverride) : List CanvasCmd :=
  let finalConfig := resolveConfig config
  CanvasCmd.clearRect 0 0 canvasWidth canvasHeight ::
    match normalizedLandmarks with
    | none => []
    | some lms =>
      if lms.isEmpty then []
      else
        CanvasCmd.setStrokeStyle finalConfig.connectionColor ::
        CanvasCmd.setLineWidth finalConfig.connectionLineWidth ::
        CanvasCmd.setLineCapRound ::
        (connectionCmds lms finalConfig canvasWidth canvasHeight ++
         landmarkCmds lms finalConfig canvasWidth canvasHeight)

/- ── Landmark Estimator (`MediaPipePoseEstimator` in the pose service) ── -/

/-- Lifecycle state of the estimator (`EstimatorState` in the source). -/
inductive EstimatorState where
  | uninitialized
  | loading
  | ready
  | disposed
  deriving DecidableEq

/-- A landmark of the shared `Landmark` type: 3D position plus a
visibility score. -/
structure Landmark where
  x : ℚ
  y : ℚ
  z : ℚ
  visibility : ℚ
  deriving DecidableEq

/-- The shared `PoseLandmarks` type: a landmark list plus the frame
timestamp in milliseconds. -/
structure PoseLandmarks where
  landmarks : List Landmark
  timestamp : ℚ
  deriving DecidableEq

/-- One entry of the `normalizedLandmarks` field of `PoseResult`. -/
structure NormalizedPoint where
  x : ℚ
  y : ℚ
  visibility : ℚ
  deriving DecidableEq

/-- `PoseResult`: world landmarks for angle math plus normalized
landmarks for drawing. -/
structure PoseResult where
  worldLandmarks : PoseLandmarks
  normalizedLandmarks : List NormalizedPoint
  deriving DecidableEq

/-- A raw landmark as produced by the underlying inference engine, whose
visibility field may be absent. -/
structure RawLandmark where
  x : ℚ
  y : ℚ
  z : ℚ
  visibility : Option ℚ
  deriving DecidableEq

/-- The engine result of `landmarker.detectForVideo`: per-pose landmark
lists in both coordinate spaces; a missing field is `none`. -/
structure PoseLandmarkerResult where
  landmarks : Option (List (List RawLandmark))
  worldLandmarks : Option (List (List RawLandmark))
  deriving DecidableEq

/-- The dimensions `detectPose` reads off the supplied video element. -/
structure VideoFrame where
  videoWidth : Nat
  videoHeight : Nat
  deriving DecidableEq

/-- The estimator's mutable instance fields: the underlying landmarker
handle (opaque, `none` until `init` succeeds and after `dispose`) and the
lifecycle state. -/
structure MediaPipePoseEstimator where
  landmarker : Option Unit
  state : EstimatorState
  deriving DecidableEq

/-- Message of the error thrown by `init` on a disposed estimator. -/
def alreadyDisposedMessage : String :=
  "Cannot initialize a disposed PoseEstimator. Create a new instance instead."

/-- Prefix of the error message thrown by `init` when the model load
fails. -/
def initFailurePrefix : String := "Failed to initialize MediaPipe PoseEstimator: "

/-- The full initialization-failure message wrapping the underlying
cause, as built by the template string in the source. -/
def initFailureMessage (cause : String) : String := initFailurePrefix ++ cause

/-- Outcome of the asynchronous model load attempted inside `init`
(FilesetResolver plus `PoseLandmarker.createFromOptions`). -/
inductive LoadOutcome where
  | success
  | failure (cause : String)
  deriving DecidableEq

/-- `MediaPipePoseEstimator.init`, embedded with explicit state passing:
returns the estimator after the call together with the message of the
thrown error, if any. Disposed throws; loading/ready is a no-op; from
uninitialized a successful load reaches ready, a failed load resets the
state to uninitialized and throws the wrapped cause. -/
def init (est : MediaPipePoseEstimator) (outcome : LoadOutcome) :
    MediaPipePoseEstimator × Option String :=
  if est.state = EstimatorState.disposed then
    (est, some alreadyDisposedMessage)
  else if est.state = EstimatorState.loading ∨ est.state = EstimatorState.ready then
    (est, none)
  else
    match outcome with
    | LoadOutcome.success =>
      ({ landmarker := some (), state := EstimatorState.ready }, none)
    | LoadOutcome.failure cause =>
      ({ landmarker := est.landmarker, state := EstimatorState.uninitialized },
       some (initFailureMessage cause))

/-- `MediaPipePoseEstimator.detectPose`, embedded as a total function: the
engine result the landmarker would produce for this frame is passed as an
argument. Returns `none` ("nothing detected") when the estimator is not
ready, when the landmarker handle is absent, when either frame dimension
is zero, or when either landmark array of the engine result is missing or
empty; otherwise maps the raw landmarks into a `PoseResult`, defaulting a
missing visibility to 0. -/
def detectPose (est : MediaPipePoseEstimator) (videoElement : VideoFrame)
    (timestampMs : ℚ) (engineResult : PoseLandmarkerResult) : Option PoseResult :=
  if est.state ≠ EstimatorState.ready ∨ est.landmarker = none then none
  else if videoElement.videoWidth = 0 ∨ videoElement.videoHeight = 0 then none
  else
    match engineResult.worldLandmarks, engineResult.landmarks with
    | some wls, some nls =>
      match wls.head?, nls.head? with
      | some w0, some n0 =>
        if w0.isEmpty ∨ n0.isEmpty then none
        else
          some
            { worldLandmarks :=
                { landmarks := w0.map fun lm =>
                    { x := lm.x, y := lm.y, z := lm.z,
                      visibility := lm.visibility.getD 0 }
                  timestamp := timestampMs }
              normalizedLandmarks := n0.map fun lm =>
                { x := lm.x, y := lm.y, visibility := lm.visibility.getD 0 } }
      | _, _ => none
    | _, _ => none

/-- `MediaPipePoseEstimator.dispose`: closes and clears the landmarker
handle and sets the state to disposed, from any state, without error. -/
def dispose (_est : MediaPipePoseEstimator) : MediaPipePoseEstimator :=
  { landmarker := none, state := EstimatorState.disposed }

/- ── Frame Loop Controller (`PosePrototypeScreen.tsx`) ── -/

/-- The per-frame FPS update of `processFrame`: when the inter-frame delta
(milliseconds) is positive, exponentially smooth with the instantaneous
rate `1000 / deltaMs`; otherwise leave the smoothed value unchanged. -/
def updateSmoothedFps (prevFps deltaMs : ℚ) : ℚ :=
  if deltaMs > 0 then prevFps * (9/10) + (1000 / deltaMs) * (1/10) else prevFps

/-- Observable events of the start/cleanup sequences of
`PosePrototypeScreen`. -/
inductive SessionEvent where
  | enterLoading
  | cameraAcquired
  | cancelFrameLoop
  | disposeEstimator
  | stopCamera
  | removeVideo
  | clearCanvas
  | enterRunning
  | enterError (message : String)
  deriving DecidableEq

/-- Which refs of the screen component currently hold a resource:
`animationFrameRef`, `estimatorRef`, `stopCameraRef`, the video element
together with its DOM parent (the removal guard checks both), and
`canvasRef`. -/
structure SessionRefs where
  animationFrame : Bool
  estimator : Bool
  stopCamera : Bool
  videoAttached : Bool
  canvas : Bool
  deriving DecidableEq

/-- The `cleanup` callback of `PosePrototypeScreen`: cancel the frame
loop, dispose the estimator, stop the camera, remove the video element,
clear the canvas — each step guarded by its ref being set. -/
def cleanup (refs : SessionRefs) : List SessionEvent :=
  (if refs.animationFrame then [SessionEvent.cancelFrameLoop] else []) ++
  (if refs.estimator then [SessionEvent.disposeEstimator] else []) ++
  (if refs.stopCamera then [SessionEvent.stopCamera] else []) ++
  (if refs.videoAttached then [SessionEvent.removeVideo] else []) ++
  (if refs.canvas then [SessionEvent.clearCanvas] else [])

/-- Message thrown by `startSession` when `isCameraSupported` is false. -/
def cameraUnsupportedMessage : String :=
  "Camera is not supported in this browser. Make sure you are using HTTPS (or localhost) and a modern browser."

/-- The `startSession` callback as an event trace, parameterized by the
environment outcomes: camera capability, camera acquisition, and
estimator `init`. Any thrown error is caught by the single catch block,
which runs `cleanup` over the refs assigned so far and then enters the
error state. At a loss before the DOM-attach step the video element is
still detached, so the removal guard (`videoRef.current.parentNode`)
skips it; the canvas element is always mounted. -/
def startSession (supported : Bool) (cameraResult : Except String Unit)
    (initResult : Except String Unit) : List SessionEvent :=
  let refs0 : SessionRefs :=
    { animationFrame := false, estimator := false, stopCamera := false,
      videoAttached := false, canvas := true }
  if ¬ supported then
    SessionEvent.enterLoading ::
      (cleanup refs0 ++ [SessionEvent.enterError cameraUnsupportedMessage])
  else
    match cameraResult with
    | Except.error e =>
      SessionEvent.enterLoading :: (cleanup refs0 ++ [SessionEvent.enterError e])
    | Except.ok _ =>
      let refs1 : SessionRefs := { refs0 with stopCamera := true }
      match initResult with
      | Except.error e =>
        SessionEvent.enterLoading :: SessionEvent.cameraAcquired ::
          (cleanup refs1 ++ [SessionEvent.enterError e])
      | Except.ok _ =>
        [SessionEvent.enterLoading, SessionEvent.cameraAcquired,
         SessionEvent.enterRunning]

/- ── Sample data used by closed witness statements ── -/

/-- Sample underlying cause for an initialization failure. -/
def sampleCause : String := "network error while downloading the model"

/-- Sample engine landmark with all fields present. -/
def sampleRawLandmark : RawLandmark := ⟨1/2, 1/2, 0, some (9/10)⟩

/-- Sample drawable landmark with a high visibility score. -/
def highVisibilityLandmark : NormalizedLandmark := ⟨1/4, 1/4, some (9/10)⟩

/-- Sample landmark whose visibility field is absent. -/
def hiddenLandmark : NormalizedLandmark := ⟨1/2, 1/2, none⟩

/- ── Claim theorems ── -/

/-- Claim C1, counterexample: `toCanvasCoords` does not mirror the
horizontal axis — the landmark at normalized x = 0.2 on a 640-wide surface
maps to canvas x = 128, not to 640 − 0.2·640 = 512 as the claim states. -/
theorem toCanvasCoords_no_mirror_counterexample :
    (toCanvasCoords ⟨1/5, 1/5, none⟩ 640 480).1 ≠ 512 ∧
    (toCanvasCoords ⟨1/5, 1/5, none⟩ 640 480).1 = 128 := by
  constructor
  · norm_num [toCanvasCoords]
  · norm_num [toCanvasCoords]

/-- Claim C1, amended: the coordinate mapping multiplies normalized
coordinates directly by the surface dimensions with no horizontal
mirroring, so x = 0.2 on width 640 maps to canvas x = 128; the mirrored
on-screen position 512 arises only from the CSS scaleX(-1) presentation
transform applied to the whole canvas (and, identically, to the video). -/
theorem toCanvasCoords_direct_mapping (lm : NormalizedLandmark) (w h : ℚ) :
    toCanvasCoords lm w h = (lm.x * w, lm.y * h) ∧
    (toCanvasCoords ⟨1/5, 1/5, none⟩ 640 480).1 = 128 ∧
    cssMirrorX 640 (toCanvasCoords ⟨1/5, 1/5, none⟩ 640 480).1 = 512 := by
  refine ⟨rfl, by norm_num [toCanvasCoords], by norm_num [toCanvasCoords, cssMirrorX]⟩

/-- Helper: on a single-landmark input with the default configuration,
the `drawSkeleton` trace is the clear, the three line-style settings, and
the dot commands of that one landmark (no connection has both endpoints
present in a one-element array). -/
lemma drawSkeleton_single_shape (lm : NormalizedLandmark) :
    drawSkeleton 640 480 (some [lm]) emptyOverride =
      CanvasCmd.clearRect 0 0 640 480 ::
      CanvasCmd.setStrokeStyle DEFAULT_DRAW_CONFIG.connectionColor ::
      CanvasCmd.setLineWidth DEFAULT_DRAW_CONFIG.connectionLineWidth ::
      CanvasCmd.setLineCapRound ::
      (landmarkDotCmds lm DEFAULT_DRAW_CONFIG 640 480 ++ []) := rfl

/-- Helper: the dot commands of a landmark at the center of a 640×480
canvas whose visibility is at least the default threshold but at most
0.4 (low-confidence color). -/
lemma landmarkDotCmds_center_low (v : ℚ) (hge : 3/10 ≤ v) (hle : v ≤ 4/10) :
    landmarkDotCmds ⟨1/2, 1/2, some v⟩ DEFAULT_DRAW_CONFIG 640 480 =
      [CanvasCmd.beginPath, CanvasCmd.arc 320 240 7,
       CanvasCmd.setFillStyle whiteColor, CanvasCmd.fillPath,
       CanvasCmd.beginPath, CanvasCmd.arc 320 240 6,
       CanvasCmd.setFillStyle DEFAULT_DRAW_CONFIG.lowConfidenceColor,
       CanvasCmd.fillPath] := by
  have hc : getConfidenceColor v DEFAULT_DRAW_CONFIG =
      DEFAULT_DRAW_CONFIG.lowConfidenceColor := by
    simp only [getConfidenceColor]
    rw [if_neg (not_lt.mpr (by linarith : v ≤ 7/10)), if_neg (not_lt.mpr hle)]
  simp only [landmarkDotCmds, Option.getD_some, toCanvasCoords, hc]
  rw [if_neg (by simp only [DEFAULT_DRAW_CONFIG]; exact not_lt.mpr hge)]
  norm_num [DEFAULT_DRAW_CONFIG]

/-- Claim C2, counterexample: a landmark whose visibility exactly equals
the default threshold 0.3 IS drawn by `drawSkeleton` — its border-ring arc
command appears in the trace — refuting the claimed exclusive bound. -/
theorem threshold_equal_visibility_drawn :
    CanvasCmd.arc 320 240 7 ∈
      drawSkeleton 640 480 (some [⟨1/2, 1/2, some (3/10)⟩]) emptyOverride := by
  rw [drawSkeleton_single_shape,
      landmarkDotCmds_center_low (3/10) (le_refl _) (by norm_num)]
  simp

/-- Claim C2, amended: the drawability threshold is an INCLUSIVE lower
bound: a landmark is drawn iff its visibility (defaulting to 0) is at
least the threshold, so visibility exactly 0.3 is drawn with the default
config and 0.31 is drawn, while anything strictly below is omitted; each
endpoint of a connection edge is checked independently against the same
inclusive bound. -/
theorem drawability_threshold_inclusive (lm s e : NormalizedLandmark)
    (cfg : DrawConfig) (w h : ℚ) :
    (landmarkDotCmds lm cfg w h ≠ [] ↔
      cfg.visibilityThreshold ≤ lm.visibility.getD 0) ∧
    (connectionSegCmds (some s) (some e) cfg w h ≠ [] ↔
      (cfg.visibilityThreshold ≤ s.visibility.getD 0 ∧
       cfg.visibilityThreshold ≤ e.visibility.getD 0)) ∧
    CanvasCmd.arc 320 240 7 ∈
      drawSkeleton 640 480 (some [⟨1/2, 1/2, some (31/100)⟩]) emptyOverride ∧
    drawSkeleton 640 480 (some [⟨1/2, 1/2, some (29/100)⟩]) emptyOverride =
      [CanvasCmd.clearRect 0 0 640 480,
       CanvasCmd.setStrokeStyle DEFAULT_DRAW_CONFIG.connectionColor,
       CanvasCmd.setLineWidth DEFAULT_DRAW_CONFIG.connectionLineWidth,
       CanvasCmd.setLineCapRound] := by
  refine ⟨?_, ?_, ?_, ?_⟩
  · simp only [landmarkDotCmds]
    by_cases hv : lm.visibility.getD 0 < cfg.visibilityThreshold
    · rw [if_pos hv]
      exact iff_of_false (by simp) (not_le.mpr hv)
    · rw [if_neg hv]
      exact iff_of_true (by simp) (not_lt.mp hv)
  · simp only [connectionSegCmds]
    by_cases hv : s.visibility.getD 0 < cfg.visibilityThreshold ∨
        e.visibility.getD 0 < cfg.visibilityThreshold
    · rw [if_pos hv]
      refine iff_of_false (by simp) ?_
      rintro ⟨h1, h2⟩
      rcases hv with hv | hv
      · exact absurd h1 (not_le.mpr hv)
      · exact absurd h2 (not_le.mpr hv)
    · rw [if_neg hv]
      push_neg at hv
      exact iff_of_true (by simp) hv
  · rw [drawSkeleton_single_shape,
        landmarkDotCmds_center_low (31/100) (by norm_num) (by norm_num)]
    simp
  · rw [drawSkeleton_single_shape]
    have hdot : landmarkDotCmds ⟨1/2, 1/2, some (29/100)⟩
        DEFAULT_DRAW_CONFIG 640 480 = [] := by
      simp only [landmarkDotCmds, Option.getD_some]
      rw [if_pos (by norm_num [DEFAULT_DRAW_CONFIG])]
    rw [hdot]
    rfl

/-- Claim C3: `detectPose` returns the "nothing detected" value when the
lifecycle state is not ready or the frame has a zero dimension; the
embedding is a total function, so no exception is possible. -/
theorem detectPose_not_ready_or_empty_frame (est : MediaPipePoseEstimator)
    (frame : VideoFrame) (ts : ℚ) (engine : PoseLandmarkerResult)
    (h : est.state ≠ EstimatorState.ready ∨ frame.videoWidth = 0 ∨
      frame.videoHeight = 0) :
    detectPose est frame ts engine = none := by
  unfold detectPose
  by_cases h1 : est.state ≠ EstimatorState.ready ∨ est.landmarker = none
  · rw [if_pos h1]
  · have h2 : frame.videoWidth = 0 ∨ frame.videoHeight = 0 := by
      rcases h with h | h
      · exact absurd (Or.inl h) h1
      · exact h
    rw [if_neg h1, if_pos h2]

/-- Witness for C3: a loading-state estimator on a valid frame yields
"nothing detected". -/
theorem detectPose_not_ready_witness :
    detectPose ⟨some (), EstimatorState.loading⟩ ⟨640, 480⟩ 0 ⟨none, none⟩ = none :=
  detectPose_not_ready_or_empty_frame _ _ _ _ (Or.inl (by decide))

/-- Claim C4: `init` is a no-op from loading/ready, throws the
AlreadyDisposed message from disposed, and on a failed model load resets
the state to uninitialized and throws the initialization-failure message
carrying the underlying cause. -/
theorem init_lifecycle (est : MediaPipePoseEstimator) (outcome : LoadOutcome) :
    ((est.state = EstimatorState.loading ∨ est.state = EstimatorState.ready) →
      init est outcome = (est, none)) ∧
    (est.state = EstimatorState.disposed →
      init est outcome = (est, some alreadyDisposedMessage)) ∧
    (est.state = EstimatorState.uninitialized → ∀ cause,
      init est (LoadOutcome.failure cause) =
        ({ landmarker := est.landmarker, state := EstimatorState.uninitialized },
         some (initFailureMessage cause))) := by
  obtain ⟨lmk, st⟩ := est
  refine ⟨fun h => ?_, fun h => ?_, fun h cause => ?_⟩
  · rcases h with h | h <;> (simp only at h; subst h; rfl)
  · simp only at h; subst h; rfl
  · simp only at h; subst h; rfl

/-- Witness for C4: the three transition behaviours at concrete
estimators. -/
theorem init_lifecycle_witness :
    init ⟨none, EstimatorState.uninitialized⟩ (LoadOutcome.failure sampleCause) =
      (⟨none, EstimatorState.uninitialized⟩, some (initFailureMessage sampleCause)) ∧
    init ⟨some (), EstimatorState.ready⟩ LoadOutcome.success =
      (⟨some (), EstimatorState.ready⟩, none) ∧
    init ⟨none, EstimatorState.disposed⟩ LoadOutcome.success =
      (⟨none, EstimatorState.disposed⟩, some alreadyDisposedMessage) :=
  ⟨(init_lifecycle ⟨none, EstimatorState.uninitialized⟩ LoadOutcome.success).2.2
      rfl sampleCause,
   (init_lifecycle ⟨some (), EstimatorState.ready⟩ LoadOutcome.success).1 (Or.inr rfl),
   (init_lifecycle ⟨none, EstimatorState.disposed⟩ LoadOutcome.success).2.1 rfl⟩

/-- Claim C5: in the ready state with a live landmarker and non-zero frame
dimensions, `detectPose` produces a detection exactly when both the
world-space and the normalized-space landmark arrays of the engine result
are present and non-empty. -/
theorem detectPose_requires_both_arrays (est : MediaPipePoseEstimator)
    (frame : VideoFrame) (ts : ℚ) (engine : PoseLandmarkerResult)
    (hstate : est.state = EstimatorState.ready) (hlmk : est.landmarker = some ())
    (hw : frame.videoWidth ≠ 0) (hh : frame.videoHeight ≠ 0) :
    (detectPose est frame ts engine).isSome ↔
      ((∃ wls w0, engine.worldLandmarks = some wls ∧ wls.head? = some w0 ∧ w0 ≠ []) ∧
       (∃ nls n0, engine.landmarks = some nls ∧ nls.head? = some n0 ∧ n0 ≠ [])) := by
  have h1 : ¬(est.state ≠ EstimatorState.ready ∨ est.landmarker = none) := by
    simp [hstate, hlmk]
  have h2 : ¬(frame.videoWidth = 0 ∨ frame.videoHeight = 0) := by simp [hw, hh]
  unfold detectPose
  rw [if_neg h1, if_neg h2]
  obtain ⟨nlsO, wlsO⟩ := engine
  cases wlsO with
  | none => simp
  | some wls =>
    cases nlsO with
    | none => simp
    | some nls =>
      cases wls with
      | nil => simp
      | cons w0 wrest =>
        cases nls with
        | nil => simp
        | cons n0 nrest =>
          by_cases hw0 : w0 = []
          · subst hw0
            simp
          · by_cases hn0 : n0 = []
            · subst hn0
              simp [List.isEmpty_iff, hw0]
            · simp [List.isEmpty_iff, hw0, hn0]

/-- Witness for C5: a ready estimator with both engine arrays populated
does produce a detection. -/
theorem detectPose_requires_both_witness :
    (detectPose ⟨some (), EstimatorState.ready⟩ ⟨640, 480⟩ 0
      ⟨some [[sampleRawLandmark]], some [[sampleRawLandmark]]⟩).isSome := by
  rw [detectPose_requires_both_arrays _ _ _ _ rfl rfl (by decide) (by decide)]
  exact ⟨⟨[[sampleRawLandmark]], [sampleRawLandmark], rfl, rfl, by simp⟩,
         ⟨[[sampleRawLandmark]], [sampleRawLandmark], rfl, rfl, by simp⟩⟩

/-- Claim C6: in a start sequence where the capability probe and camera
acquisition succeed but estimator init rejects, the trace routes through
the full cleanup routine: the camera stop event occurs strictly before the
transition to the error state, for every failure cause. -/
theorem camera_released_before_error (cause : String) :
    startSession true (Except.ok ()) (Except.error cause) =
      [SessionEvent.enterLoading, SessionEvent.cameraAcquired,
       SessionEvent.stopCamera, SessionEvent.clearCanvas,
       SessionEvent.enterError cause] ∧
    ∃ i j : Nat, i < j ∧
      (startSession true (Except.ok ()) (Except.error cause))[i]? =
        some SessionEvent.stopCamera ∧
      (startSession true (Except.ok ()) (Except.error cause))[j]? =
        some (SessionEvent.enterError cause) :=
  ⟨rfl, 2, 4, by norm_num, rfl, rfl⟩

/-- Claim C7: the per-frame FPS update is exponential smoothing with
weights 0.9/0.1 on the instantaneous rate 1000/deltaMs, skipped entirely
for a zero or negative inter-frame delta; at S = 30 and r = 60 the updated
value is exactly 33. -/
theorem fps_exponential_smoothing (prevFps deltaMs : ℚ) :
    (0 < deltaMs →
      updateSmoothedFps prevFps deltaMs =
        prevFps * (9/10) + (1000 / deltaMs) * (1/10)) ∧
    (deltaMs ≤ 0 → updateSmoothedFps prevFps deltaMs = prevFps) ∧
    updateSmoothedFps 30 (1000/60) = 33 := by
  refine ⟨fun h => ?_, fun h => ?_, ?_⟩
  · simp only [updateSmoothedFps]
    rw [if_pos h]
  · simp only [updateSmoothedFps]
    rw [if_neg (not_lt.mpr h)]
  · simp only [updateSmoothedFps]
    rw [if_pos (by norm_num : (1000/60 : ℚ) > 0)]
    norm_num

/-- Witness for C7: the smoothing branch applies at the concrete delta
corresponding to an instantaneous rate of 60 FPS. -/
theorem fps_exponential_smoothing_witness :
    (0 : ℚ) < 1000/60 ∧
    updateSmoothedFps 30 (1000/60) = 30 * (9/10) + (1000 / (1000/60)) * (1/10) :=
  ⟨by norm_num, (fps_exponential_smoothing 30 (1000/60)).1 (by norm_num)⟩

/-- Claim C8: `dispose` is total and idempotent: from any state it lands
in disposed, and a second call produces the same disposed estimator. -/
theorem dispose_idempotent_total (est : MediaPipePoseEstimator) :
    (dispose est).state = EstimatorState.disposed ∧
    (dispose (dispose est)).state = EstimatorState.disposed ∧
    dispose (dispose est) = dispose est :=
  ⟨rfl, rfl, rfl⟩

/-- Claim C9: every `drawSkeleton` trace begins with the canvas clear,
and a null or empty landmark argument yields the clear alone — no point or
line drawing commands. -/
theorem drawSkeleton_clears_first (w h : ℚ)
    (lms : Option (List NormalizedLandmark)) (config : DrawConfigOverride) :
    (drawSkeleton w h lms config).head? = some (CanvasCmd.clearRect 0 0 w h) ∧
    ((lms = none ∨ lms = some []) →
      drawSkeleton w h lms config = [CanvasCmd.clearRect 0 0 w h]) := by
  constructor
  · rfl
  · rintro (rfl | rfl) <;> rfl

/-- Witness for C9: a null landmark argument yields only the clear. -/
theorem drawSkeleton_clears_first_witness :
    drawSkeleton 640 480 none emptyOverride = [CanvasCmd.clearRect 0 0 640 480] :=
  (drawSkeleton_clears_first 640 480 none emptyOverride).2 (Or.inl rfl)

/-- Claim C10: a landmark with an absent visibility field defaults to 0,
so for any positive threshold its dot is never drawn and every connection
edge with it as an endpoint is skipped, regardless of the other
endpoint. -/
theorem missing_visibility_treated_as_zero (lm other : NormalizedLandmark)
    (cfg : DrawConfig) (w h : ℚ) (hnone : lm.visibility = none)
    (hpos : 0 < cfg.visibilityThreshold) :
    landmarkDotCmds lm cfg w h = [] ∧
    connectionSegCmds (some lm) (some other) cfg w h = [] ∧
    connectionSegCmds (some other) (some lm) cfg w h = [] := by
  have hv : lm.visibility.getD 0 = 0 := by rw [hnone]; rfl
  refine ⟨?_, ?_, ?_⟩
  · simp only [landmarkDotCmds, hv]
    rw [if_pos hpos]
  · simp only [connectionSegCmds, hv]
    rw [if_pos (Or.inl hpos)]
  · simp only [connectionSegCmds, hv]
    rw [if_pos (Or.inr hpos)]

/-- Witness for C10: with the default config, the visibility-less landmark
draws nothing and suppresses both edge orientations against a
high-visibility partner. -/
theorem missing_visibility_witness :
    landmarkDotCmds hiddenLandmark DEFAULT_DRAW_CONFIG 640 480 = [] ∧
    connectionSegCmds (some hiddenLandmark) (some highVisibilityLandmark)
      DEFAULT_DRAW_CONFIG 640 480 = [] ∧
    connectionSegCmds (some highVisibilityLandmark) (some hiddenLandmark)
      DEFAULT_DRAW_CONFIG 640 480 = [] :=
  missing_visibility_treated_as_zero hiddenLandmark highVisibilityLandmark
    DEFAULT_DRAW_CONFIG 640 480 rfl (by norm_num [DEFAULT_DRAW_CONFIG])

end Myonites
